import Mathlib

/-!
Verification development for the editor session engine of the
Photo-Editor repository (TypeScript).

The embedding models, faithfully to the source:
  - the zustand editor store of src/src/store/editorStore.ts
    (history timeline, undo/redo, settings, presets, dirty flag);
  - the ToolRegistryClass of the tool-registry module
    (activation lifecycle with an explicit event trace for the
    activate/deactivate hook invocations);
  - the ToolPresetsClass preset catalog (applyPreset, addPreset,
    removePreset and the import validation path).

Modelling conventions:
  - fabric.Canvas is modelled by the parts of its state the store reads and
    writes: the serializable scene (object list + background, which is what
    toJSON/loadFromJSON round-trip) and the width/height set by
    updateCanvasSettings.  JSON.stringify of toJSON output is injective, so
    a history snapshot stores the Scene value itself.
  - fabric objects are opaque payloads plus the left/top coordinates the
    store mutates (duplicate offsets the clone by +10/+10).
  - generateId() and Date.now() are nondeterministic inputs and become
    explicit parameters of the operations that call them.
  - JS numbers that only ever hold integers in this code are Int; the
    history cursor historyIndex is Int because its initial value is -1.
  - Partial settings records become patch structures with one Option field
    per settable field; object spread merge is field-wise Option.getD.
-/

/-- Last n elements of a list, the semantics of the JS slice(-n) call in
saveToHistory. -/
def takeLast (n : Nat) (l : List α) : List α :=
  l.drop (l.length - n)

/-- Remove the first occurrence of an element, the effect of
canvas.remove(obj) on the object list. -/
def eraseFirst [DecidableEq α] : List α → α → List α
  | [], _ => []
  | x :: xs, a => if x = a then xs else x :: eraseFirst xs a

/-- Lookup in an association list, the semantics of Map.get. -/
def mapGet [DecidableEq κ] (m : List (κ × α)) (k : κ) : Option α :=
  match m with
  | [] => none
  | (k0, v) :: rest => if k0 = k then some v else mapGet rest k

/-- Insert or replace a binding, the semantics of Map.set. -/
def mapSet [DecidableEq κ] (m : List (κ × α)) (k : κ) (v : α) : List (κ × α) :=
  match m with
  | [] => [(k, v)]
  | (k0, v0) :: rest => if k0 = k then (k, v) :: rest else (k0, v0) :: mapSet rest k v

/-- Delete a binding, the semantics of Map.delete. -/
def mapDel [DecidableEq κ] (m : List (κ × α)) (k : κ) : List (κ × α) :=
  m.filter (fun p => p.1 ≠ k)

/-- A fabric object: opaque serialized payload plus the position fields the
store code mutates. -/
structure Obj where
  data : String
  left : Int
  top : Int
deriving DecidableEq, Repr

/-- The serializable canvas content: what fabric toJSON captures and
loadFromJSON restores (ordered object list and background color). -/
structure Scene where
  objects : List Obj
  background : String
deriving DecidableEq, Repr

/-- The fabric.Canvas state the store touches: the scene plus the dimensions
set via setWidth/setHeight (dimensions are not part of toJSON output). -/
structure Canvas where
  scene : Scene
  width : Int
  height : Int
deriving DecidableEq, Repr

/-- HistoryState of editorStore.ts: one history timeline entry. -/
structure HistoryState where
  id : String
  action : String
  timestamp : Nat
  canvasState : Scene
deriving DecidableEq, Repr

/-- The fitMode union type of CanvasSettings. -/
inductive FitMode where
  | fit
  | fill
  | stretch
deriving DecidableEq, Repr

/-- CanvasSettings of editorStore.ts. -/
structure CanvasSettings where
  width : Int
  height : Int
  backgroundColor : String
  fitMode : FitMode
deriving DecidableEq, Repr

/-- TextSettings of editorStore.ts; the fabric.Shadow | null field is an
opaque Option payload. -/
structure TextSettings where
  fontFamily : String
  fontSize : Int
  fontWeight : String
  fill : String
  textAlign : String
  stroke : String
  strokeWidth : Int
  shadow : Option String
  backgroundColor : String
deriving DecidableEq, Repr

/-- Partial CanvasSettings.  A some field is present in the update record. -/
structure CanvasSettingsPatch where
  width : Option Int := none
  height : Option Int := none
  backgroundColor : Option String := none
  fitMode : Option FitMode := none
deriving DecidableEq, Repr

/-- Partial TextSettings.  A some field is present in the update record;
for shadow the inner Option is the nullable value itself. -/
structure TextSettingsPatch where
  fontFamily : Option String := none
  fontSize : Option Int := none
  fontWeight : Option String := none
  fill : Option String := none
  textAlign : Option String := none
  stroke : Option String := none
  strokeWidth : Option Int := none
  shadow : Option (Option String) := none
  backgroundColor : Option String := none
deriving DecidableEq, Repr

/-- Object-spread merge of a partial record into CanvasSettings. -/
def mergeCanvasSettings (t : CanvasSettings) (p : CanvasSettingsPatch) : CanvasSettings :=
  { width := p.width.getD t.width
    height := p.height.getD t.height
    backgroundColor := p.backgroundColor.getD t.backgroundColor
    fitMode := p.fitMode.getD t.fitMode }

/-- Object-spread merge of a partial record into TextSettings. -/
def mergeTextSettings (t : TextSettings) (p : TextSettingsPatch) : TextSettings :=
  { fontFamily := p.fontFamily.getD t.fontFamily
    fontSize := p.fontSize.getD t.fontSize
    fontWeight := p.fontWeight.getD t.fontWeight
    fill := p.fill.getD t.fill
    textAlign := p.textAlign.getD t.textAlign
    stroke := p.stroke.getD t.stroke
    strokeWidth := p.strokeWidth.getD t.strokeWidth
    shadow := p.shadow.getD t.shadow
    backgroundColor := p.backgroundColor.getD t.backgroundColor }

/-- The settings payload of a preset (Record keyed by domain).  The filters
and objects domains are carried but their application code is an empty
placeholder in the source. -/
structure PresetSettings where
  textSettings : Option TextSettingsPatch := none
  canvasSettings : Option CanvasSettingsPatch := none
  filters : Option String := none
  objects : Option (List String) := none
deriving DecidableEq, Repr

/-- PresetState of editorStore.ts. -/
structure PresetState where
  id : String
  name : String
  settings : PresetSettings
  thumbnail : Option String := none
  createdAt : Nat
deriving DecidableEq, Repr

/-- The record persisted by saveToLocalStorage; on load each field may be
absent (the JS || fallbacks). -/
structure SavedData where
  presets : Option (List PresetState) := none
  canvasSettings : Option CanvasSettings := none
  textSettings : Option TextSettings := none
  canvasData : Option Scene := none
deriving DecidableEq, Repr

/-- EditorState of editorStore.ts. -/
structure EditorState where
  canvas : Option Canvas
  activeObject : Option Obj
  selectedTool : String
  isLoading : Bool
  history : List HistoryState
  historyIndex : Int
  presets : List PresetState
  currentImage : Option String
  canvasSettings : CanvasSettings
  textSettings : TextSettings
  isDirty : Bool
deriving DecidableEq, Repr

def defaultCanvasSettings : CanvasSettings :=
  { width := 800, height := 600, backgroundColor := "#ffffff", fitMode := FitMode.fit }

def defaultTextSettings : TextSettings :=
  { fontFamily := "Arial", fontSize := 32, fontWeight := "normal", fill := "#000000"
    textAlign := "left", stroke := "", strokeWidth := 0, shadow := none
    backgroundColor := "" }

/-- The initial store state of useEditorStore. -/
def initialState : EditorState :=
  { canvas := none
    activeObject := none
    selectedTool := "select"
    isLoading := false
    history := []
    historyIndex := -1
    presets := []
    currentImage := none
    canvasSettings := defaultCanvasSettings
    textSettings := defaultTextSettings
    isDirty := false }

/-- saveToHistory of editorStore.ts.  The generated id and Date.now() are
the newId/now parameters.  historyIndex is always ≥ -1 in reachable states,
so slice(0, historyIndex+1) is take of the nonnegative (historyIndex+1). -/
def saveToHistory (actionLabel newId : String) (now : Nat) (s : EditorState) : EditorState :=
  match s.canvas with
  | none => s
  | some c =>
    let newHistoryItem : HistoryState :=
      { id := newId, action := actionLabel, timestamp := now, canvasState := c.scene }
    let newHistory := s.history.take (s.historyIndex + 1).toNat ++ [newHistoryItem]
    let limitedHistory := takeLast 50 newHistory
    { s with history := limitedHistory
             historyIndex := (limitedHistory.length : Int) - 1
             isDirty := true }

/-- undo of editorStore.ts.  loadFromJSON replaces the canvas scene with the
stored snapshot; the callback then updates the store fields.  A failed
array read (unreachable in reachable states) leaves the state unchanged,
as the thrown exception would prevent the set call. -/
def undo (s : EditorState) : EditorState :=
  match s.canvas with
  | none => s
  | some c =>
    if s.historyIndex ≤ 0 then s
    else
      match s.history.get? (s.historyIndex - 1).toNat with
      | none => s
      | some previousState =>
        { s with canvas := some { c with scene := previousState.canvasState }
                 historyIndex := s.historyIndex - 1
                 activeObject := none
                 isDirty := true }

/-- redo of editorStore.ts. -/
def redo (s : EditorState) : EditorState :=
  match s.canvas with
  | none => s
  | some c =>
    if s.historyIndex ≥ (s.history.length : Int) - 1 then s
    else
      match s.history.get? (s.historyIndex + 1).toNat with
      | none => s
      | some nextState =>
        { s with canvas := some { c with scene := nextState.canvasState }
                 historyIndex := s.historyIndex + 1
                 activeObject := none
                 isDirty := true }

/-- canUndo of editorStore.ts. -/
def canUndo (s : EditorState) : Bool :=
  decide (s.historyIndex > 0)

/-- canRedo of editorStore.ts. -/
def canRedo (s : EditorState) : Bool :=
  decide (s.historyIndex < (s.history.length : Int) - 1)

/-- savePreset of editorStore.ts. -/
def savePreset (name : String) (settings : PresetSettings) (newId : String) (now : Nat)
    (s : EditorState) : EditorState :=
  { s with presets := s.presets ++
      [{ id := newId, name := name, settings := settings, createdAt := now }] }

/-- updateTextSettings of editorStore.ts. -/
def updateTextSettings (p : TextSettingsPatch) (s : EditorState) : EditorState :=
  { s with textSettings := mergeTextSettings s.textSettings p, isDirty := true }

/-- updateCanvasSettings of editorStore.ts: merges the partial record, pushes
width/height/background onto the bound canvas, marks the session dirty. -/
def updateCanvasSettings (p : CanvasSettingsPatch) (s : EditorState) : EditorState :=
  let newSettings := mergeCanvasSettings s.canvasSettings p
  let s1 :=
    match s.canvas with
    | some c =>
      { s with canvas := some { c with
          width := newSettings.width
          height := newSettings.height
          scene := { c.scene with background := newSettings.backgroundColor } } }
    | none => s
  { s1 with canvasSettings := newSettings, isDirty := true }

/-- loadPreset of editorStore.ts: looks the preset up in the store-level
preset list and applies its textSettings domain when present. -/
def loadPreset (presetId : String) (s : EditorState) : EditorState :=
  match s.presets.find? (fun p => p.id == presetId), s.canvas with
  | some preset, some _ =>
    match preset.settings.textSettings with
    | some tp => updateTextSettings tp s
    | none => s
  | _, _ => s

/-- deletePreset of editorStore.ts. -/
def deletePreset (presetId : String) (s : EditorState) : EditorState :=
  { s with presets := s.presets.filter (fun p => p.id != presetId) }

/-- deleteSelectedObject of editorStore.ts. -/
def deleteSelectedObject (newId : String) (now : Nat) (s : EditorState) : EditorState :=
  match s.canvas, s.activeObject with
  | some c, some o =>
    let c1 := { c with scene := { c.scene with objects := eraseFirst c.scene.objects o } }
    let s1 := { s with canvas := some c1 }
    let s2 := saveToHistory "Delete object" newId now s1
    { s2 with activeObject := none }
  | _, _ => s

/-- duplicateSelectedObject of editorStore.ts: the clone callback offsets the
copy by +10/+10, adds it, selects it and records history. -/
def duplicateSelectedObject (newId : String) (now : Nat) (s : EditorState) : EditorState :=
  match s.canvas, s.activeObject with
  | some c, some o =>
    let cloned := { o with left := o.left + 10, top := o.top + 10 }
    let c1 := { c with scene := { c.scene with objects := c.scene.objects ++ [cloned] } }
    let s1 := { s with canvas := some c1 }
    let s2 := saveToHistory "Duplicate object" newId now s1
    { s2 with activeObject := some cloned }
  | _, _ => s

/-- bringToFront of editorStore.ts: moves the selected object to the top of
the stacking order and records history. -/
def bringToFront (newId : String) (now : Nat) (s : EditorState) : EditorState :=
  match s.canvas, s.activeObject with
  | some c, some o =>
    let c1 := { c with scene :=
      { c.scene with objects := eraseFirst c.scene.objects o ++ [o] } }
    let s1 := { s with canvas := some c1 }
    saveToHistory "Bring to front" newId now s1
  | _, _ => s

/-- sendToBack of editorStore.ts. -/
def sendToBack (newId : String) (now : Nat) (s : EditorState) : EditorState :=
  match s.canvas, s.activeObject with
  | some c, some o =>
    let c1 := { c with scene :=
      { c.scene with objects := o :: eraseFirst c.scene.objects o } }
    let s1 := { s with canvas := some c1 }
    saveToHistory "Send to back" newId now s1
  | _, _ => s

/-- importImage of editorStore.ts.  The loaded image is the img parameter;
the fit-mode scaling only changes the opaque object geometry and is elided,
the placement centers the object on the canvas settings dimensions. -/
def importImage (imageUrl : String) (img : Obj) (newId : String) (now : Nat)
    (s : EditorState) : EditorState :=
  match s.canvas with
  | none => s
  | some c =>
    let placed := { img with
      left := s.canvasSettings.width / 2, top := s.canvasSettings.height / 2 }
    let c1 := { c with scene := { c.scene with objects := c.scene.objects ++ [placed] } }
    let s1 := { s with canvas := some c1 }
    let s2 := saveToHistory "Import image" newId now s1
    { s2 with currentImage := some imageUrl }

/-- saveToLocalStorage of editorStore.ts: writes the external store and
clears the dirty flag. -/
def saveToLocalStorage (s : EditorState) : EditorState :=
  { s with isDirty := false }

/-- loadFromLocalStorage of editorStore.ts; the saved parameter is the
parsed storage content, none when nothing is stored or parsing threw. -/
def loadFromLocalStorage (saved : Option SavedData) (s : EditorState) : EditorState :=
  match saved with
  | none => s
  | some d =>
    let s1 := { s with
      presets := d.presets.getD []
      canvasSettings := d.canvasSettings.getD defaultCanvasSettings
      textSettings := d.textSettings.getD defaultTextSettings }
    match d.canvasData, s.canvas with
    | some sc, some c => { s1 with canvas := some { c with scene := sc } }
    | _, _ => s1

/-- clearLocalStorage of editorStore.ts: removes the stored record and
clears the dirty flag. -/
def clearLocalStorage (s : EditorState) : EditorState :=
  { s with isDirty := false }

/-- One store operation invocation, with every nondeterministic input
(generated ids, timestamps, loaded bytes, decoded images) as explicit
data. -/
inductive EditorAction where
  | setCanvas (c : Canvas)
  | setActiveObject (o : Option Obj)
  | setSelectedTool (tool : String)
  | setLoading (b : Bool)
  | setCurrentImage (i : Option String)
  | setIsDirty (b : Bool)
  | saveToHistory (actionLabel newId : String) (now : Nat)
  | undo
  | redo
  | savePreset (name : String) (settings : PresetSettings) (newId : String) (now : Nat)
  | loadPreset (presetId : String)
  | deletePreset (presetId : String)
  | updateCanvasSettings (p : CanvasSettingsPatch)
  | updateTextSettings (p : TextSettingsPatch)
  | deleteSelectedObject (newId : String) (now : Nat)
  | duplicateSelectedObject (newId : String) (now : Nat)
  | bringToFront (newId : String) (now : Nat)
  | sendToBack (newId : String) (now : Nat)
  | importImage (imageUrl : String) (img : Obj) (newId : String) (now : Nat)
  | saveToLocalStorage
  | loadFromLocalStorage (saved : Option SavedData)
  | clearLocalStorage
deriving DecidableEq, Repr

/-- The store transition function: dispatches one operation. -/
def dispatch (a : EditorAction) (s : EditorState) : EditorState :=
  match a with
  | EditorAction.setCanvas c => { s with canvas := some c }
  | EditorAction.setActiveObject o => { s with activeObject := o }
  | EditorAction.setSelectedTool tool => { s with selectedTool := tool }
  | EditorAction.setLoading b => { s with isLoading := b }
  | EditorAction.setCurrentImage i => { s with currentImage := i }
  | EditorAction.setIsDirty b => { s with isDirty := b }
  | EditorAction.saveToHistory l i t => saveToHistory l i t s
  | EditorAction.undo => undo s
  | EditorAction.redo => redo s
  | EditorAction.savePreset n st i t => savePreset n st i t s
  | EditorAction.loadPreset p => loadPreset p s
  | EditorAction.deletePreset p => deletePreset p s
  | EditorAction.updateCanvasSettings p => updateCanvasSettings p s
  | EditorAction.updateTextSettings p => updateTextSettings p s
  | EditorAction.deleteSelectedObject i t => deleteSelectedObject i t s
  | EditorAction.duplicateSelectedObject i t => duplicateSelectedObject i t s
  | EditorAction.bringToFront i t => bringToFront i t s
  | EditorAction.sendToBack i t => sendToBack i t s
  | EditorAction.importImage u img i t => importImage u img i t s
  | EditorAction.saveToLocalStorage => saveToLocalStorage s
  | EditorAction.loadFromLocalStorage d => loadFromLocalStorage d s
  | EditorAction.clearLocalStorage => clearLocalStorage s

/-- States reachable from the initial store state by store operations. -/
inductive Reachable : EditorState → Prop where
  | init : Reachable initialState
  | next (a : EditorAction) {s : EditorState} : Reachable s → Reachable (dispatch a s)

/-! ## Tool registry (ToolRegistryClass) -/

/-- The ToolCategory union type. -/
inductive ToolCategory where
  | selection
  | drawing
  | text
  | shapes
  | adjustments
  | ai
  | branding
deriving DecidableEq, Repr

/-- A ToolHandler.  Its activate/deactivate members are required, the three
pointer hooks optional; the hook bodies are external canvas side effects,
whose invocations the registry semantics records as trace events, so the
model keeps only the presence flags of the optional hooks. -/
structure ToolHandler where
  hasMouseDown : Bool := false
  hasMouseMove : Bool := false
  hasMouseUp : Bool := false
deriving DecidableEq, Repr

/-- A ToolDefinition; the optional React component is presentation data and
is elided. -/
structure ToolDefinition where
  id : String
  name : String
  icon : String
  category : ToolCategory
  description : String
  shortcut : Option String := none
  handler : Option ToolHandler := none
deriving DecidableEq, Repr

/-- Observable hook invocation on a tool handler, in invocation order. -/
inductive ToolEvent where
  | deactivate (toolId : String)
  | activate (toolId : String)
deriving DecidableEq, Repr

/-- The mutable fields of ToolRegistryClass.  The bound canvas is a
reference, modelled as an opaque reference id. -/
structure ToolRegistryState where
  tools : List (String × ToolDefinition)
  activeTool : Option String
  activeCanvas : Option Nat
deriving DecidableEq, Repr

/-- The registry state at construction time. -/
def emptyRegistry : ToolRegistryState :=
  { tools := [], activeTool := none, activeCanvas := none }

/-- register of ToolRegistryClass. -/
def registerTool (t : ToolDefinition) (r : ToolRegistryState) : ToolRegistryState :=
  { r with tools := mapSet r.tools t.id t }

/-- unregister of ToolRegistryClass: deletes the catalog entry only; the
activeTool and activeCanvas fields are not touched. -/
def unregisterTool (toolId : String) (r : ToolRegistryState) : ToolRegistryState :=
  { r with tools := mapDel r.tools toolId }

/-- activateTool of ToolRegistryClass.  First, when the activeTool string
and the activeCanvas reference are both truthy — the active tool id is
non-null and non-empty, as the empty string is falsy in JS — the active
tool is looked up and, when still present with a handler, its deactivate
hook is invoked on the old canvas; then the requested id is looked up and,
when present with a handler, its activate hook is invoked on the new
canvas and the registry fields are updated.  Hook invocations are returned
as the event trace, in order. -/
def activateTool (toolId : String) (canvas : Nat) (r : ToolRegistryState) :
    ToolRegistryState × List ToolEvent :=
  let deactivationEvents : List ToolEvent :=
    match r.activeTool, r.activeCanvas with
    | some currentId, some _ =>
      if currentId = "" then []
      else
        match mapGet r.tools currentId with
        | some currentTool =>
          match currentTool.handler with
          | some _ => [ToolEvent.deactivate currentId]
          | none => []
        | none => []
    | _, _ => []
  match mapGet r.tools toolId with
  | some tool =>
    match tool.handler with
    | some _ =>
      ({ r with activeTool := some toolId, activeCanvas := some canvas },
        deactivationEvents ++ [ToolEvent.activate toolId])
    | none => (r, deactivationEvents)
  | none => (r, deactivationEvents)

/-- getActiveTool of ToolRegistryClass. -/
def getActiveTool (r : ToolRegistryState) : Option String :=
  r.activeTool

/-- isToolActive of ToolRegistryClass. -/
def isToolActive (toolId : String) (r : ToolRegistryState) : Bool :=
  r.activeTool == some toolId

/-- The built-in select tool definition. -/
def selectTool : ToolDefinition :=
  { id := "select", name := "Select", icon := "MousePointer"
    category := ToolCategory.selection, description := "Select and move objects"
    shortcut := some "V", handler := some {} }

/-- The built-in text tool definition (has an onMouseDown hook). -/
def textTool : ToolDefinition :=
  { id := "text", name := "Text", icon := "Type"
    category := ToolCategory.text, description := "Add text to your design"
    shortcut := some "T", handler := some { hasMouseDown := true } }

/-- The built-in rectangle tool definition. -/
def rectangleTool : ToolDefinition :=
  { id := "rectangle", name := "Rectangle", icon := "Square"
    category := ToolCategory.shapes, description := "Draw rectangles"
    shortcut := some "R", handler := some { hasMouseDown := true } }

/-- The built-in circle tool definition. -/
def circleTool : ToolDefinition :=
  { id := "circle", name := "Circle", icon := "Circle"
    category := ToolCategory.shapes, description := "Draw circles"
    shortcut := some "C", handler := some { hasMouseDown := true } }

/-- The built-in crop tool definition. -/
def cropTool : ToolDefinition :=
  { id := "crop", name := "Crop", icon := "Crop"
    category := ToolCategory.adjustments, description := "Crop your image"
    shortcut := some "P", handler := some {} }

/-- The module-level ToolRegistry singleton after the built-in tools are
registered. -/
def initialToolRegistry : ToolRegistryState :=
  registerTool cropTool (registerTool circleTool (registerTool rectangleTool
    (registerTool textTool (registerTool selectTool emptyRegistry))))

/-! ## Preset catalog (ToolPresetsClass) -/

/-- PresetCategory of the preset module. -/
structure PresetCategory where
  id : String
  name : String
  description : String
  presets : List PresetState
deriving DecidableEq, Repr

/-- The Map-valued presetCategories field of ToolPresetsClass.  The claims
quantify over catalog contents, so the built-in categories (whose entries
carry generated ids and timestamps) stay abstract. -/
structure PresetCatalog where
  presetCategories : List (String × PresetCategory)
deriving DecidableEq, Repr

/-- registerCategory of ToolPresetsClass. -/
def registerCategory (cat : PresetCategory) (c : PresetCatalog) : PresetCatalog :=
  { c with presetCategories := mapSet c.presetCategories cat.id cat }

/-- getCategory of ToolPresetsClass. -/
def getCategory (categoryId : String) (c : PresetCatalog) : Option PresetCategory :=
  mapGet c.presetCategories categoryId

/-- getPreset of ToolPresetsClass. -/
def getPreset (categoryId presetId : String) (c : PresetCatalog) : Option PresetState :=
  match getCategory categoryId c with
  | none => none
  | some cat => cat.presets.find? (fun p => p.id == presetId)

/-- The Omit of PresetState passed to addPreset: a preset without id and
createdAt. -/
structure PresetDraft where
  name : String
  settings : PresetSettings
  thumbnail : Option String := none
deriving DecidableEq, Repr

/-- addPreset of ToolPresetsClass.  An unknown category id is a silent
no-op; otherwise the draft is completed with a generated id and timestamp
and appended to the category's preset list in place. -/
def addPreset (categoryId : String) (draft : PresetDraft) (newId : String) (now : Nat)
    (c : PresetCatalog) : PresetCatalog :=
  match mapGet c.presetCategories categoryId with
  | none => c
  | some cat =>
    let newPreset : PresetState :=
      { id := newId, name := draft.name, settings := draft.settings
        thumbnail := draft.thumbnail, createdAt := now }
    let updated := { cat with presets := cat.presets ++ [newPreset] }
    { c with presetCategories := mapSet c.presetCategories categoryId updated }

/-- removePreset of ToolPresetsClass. -/
def removePreset (categoryId presetId : String) (c : PresetCatalog) : PresetCatalog :=
  match mapGet c.presetCategories categoryId with
  | none => c
  | some cat =>
    let updated := { cat with presets := cat.presets.filter (fun p => p.id != presetId) }
    { c with presetCategories := mapSet c.presetCategories categoryId updated }

/-- applyPreset of ToolPresetsClass.  It reads the editor store, applies the
textSettings domain and the canvasSettings domain when present, and returns
the preset; the filters and objects branches have empty placeholder bodies
in the source and therefore no state effect.  The catalog itself is only
read. -/
def applyPreset (categoryId presetId : String) (c : PresetCatalog) (s : EditorState) :
    EditorState × Option PresetState :=
  match getPreset categoryId presetId c with
  | none => (s, none)
  | some preset =>
    let s1 :=
      match preset.settings.textSettings with
      | some tp => updateTextSettings tp s
      | none => s
    let s2 :=
      match preset.settings.canvasSettings with
      | some cp => updateCanvasSettings cp s1
      | none => s1
    (s2, some preset)

/-- The parsed preset field of an import record. -/
structure ImportPreset where
  name : String
  settings : PresetSettings
deriving DecidableEq, Repr

/-- The result of JSON.parse on an import payload: each of the two fields
the code validates may be absent (undefined/null). -/
structure ImportRecord where
  category : Option String := none
  preset : Option ImportPreset := none
deriving DecidableEq, Repr

/-- JS truthiness of the category field: absent and the empty string are
falsy. -/
def categoryTruthy (r : ImportRecord) : Bool :=
  match r.category with
  | none => false
  | some s => s != ""

/-- importPreset of ToolPresetsClass.  The data parameter is the JSON.parse
result, none when parsing threw.  A falsy category or preset field throws
inside the try block, which the catch turns into a false return with the
catalog untouched; otherwise addPreset is called with the renamed draft and
true is returned unconditionally. -/
def importPreset (data : Option ImportRecord) (newId : String) (now : Nat)
    (c : PresetCatalog) : Bool × PresetCatalog :=
  match data with
  | none => (false, c)
  | some parsed =>
    match parsed.category, parsed.preset with
    | some cid, some p =>
      if cid = "" then (false, c)
      else
        (true, addPreset cid
          { name := p.name ++ " (Imported)", settings := p.settings } newId now c)
    | _, _ => (false, c)

/-! ## Derived definitions: invariants, action sequences and concrete
witness states -/

/-- The history timeline invariant: the cursor is -1 exactly on the empty
timeline and a valid index otherwise, and the timeline never exceeds the
50-entry cap. -/
def HistoryInv (s : EditorState) : Prop :=
  -1 ≤ s.historyIndex ∧ s.historyIndex < (s.history.length : Int) ∧
    (s.historyIndex = -1 ↔ s.history = []) ∧ s.history.length ≤ 50

/-- The history entry a saveToHistory call with input triple
(action label, generated id, timestamp) records while canvas c is bound. -/
def mkHistoryItem (c : Canvas) (x : String × String × Nat) : HistoryState :=
  { id := x.2.1, action := x.1, timestamp := x.2.2, canvasState := c.scene }

/-- A sequence of saveToHistory calls, one per input triple. -/
def saveAll (inputs : List (String × String × Nat)) (s : EditorState) : EditorState :=
  inputs.foldl (fun st x => saveToHistory x.1 x.2.1 x.2.2 st) s

/-- A concrete canvas for the witness states. -/
def testCanvas : Canvas :=
  { scene := { objects := [], background := "#ffffff" }, width := 800, height := 600 }

/-- A concrete reachable state with two history entries and the cursor at
the tail. -/
def witnessStateA : EditorState :=
  dispatch (EditorAction.saveToHistory "Object added" "h2" 2)
    (dispatch (EditorAction.saveToHistory "Import image" "h1" 1)
      (dispatch (EditorAction.setCanvas testCanvas) initialState))

/-- 51 concrete recording inputs for the cap witness. -/
def c2Inputs : List (String × String × Nat) :=
  (List.range 51).map (fun n => ("Object added", toString n, n))

/-- The registry after the select tool was activated and then unregistered
while still recorded as active. -/
def c6Registry : ToolRegistryState :=
  unregisterTool "select" (activateTool "select" 0 initialToolRegistry).1

/-- The registry with the select tool registered and active. -/
def c7Registry : ToolRegistryState :=
  (activateTool "select" 0 initialToolRegistry).1

/-- A concrete text-domain patch for the catalog witnesses. -/
def witnessTextPatch : TextSettingsPatch :=
  { fontFamily := some "Inter", fontSize := some 48, fontWeight := some "bold"
    fill := some "#1a1a1a", textAlign := some "center", stroke := some ""
    strokeWidth := some 0 }

/-- A concrete text-domain-only settings payload. -/
def witnessPresetSettings : PresetSettings :=
  { textSettings := some witnessTextPatch }

/-- A concrete preset carrying only a textSettings domain. -/
def witnessPreset : PresetState :=
  { id := "p1", name := "Headline Bold", settings := witnessPresetSettings, createdAt := 0 }

/-- A concrete catalog with one text category holding the witness preset. -/
def witnessCatalog : PresetCatalog :=
  registerCategory
    { id := "text", name := "Text Styles"
      description := "Pre-configured text styling presets"
      presets := [witnessPreset] }
    { presetCategories := [] }

/-- A concrete import record with the preset field missing. -/
def c9Record : ImportRecord :=
  { category := some "text", preset := none }

/-- A concrete structurally valid import record naming an unknown
category. -/
def c10Record : ImportRecord :=
  { category := some "nope", preset := some { name := "X", settings := {} } }

/-! ## Helper lemmas -/

lemma takeLast_length (n : Nat) (l : List α) : (takeLast n l).length = min n l.length := by
  simp only [takeLast, List.length_drop]
  omega

lemma takeLast_of_length_le {n : Nat} {l : List α} (h : l.length ≤ n) : takeLast n l = l := by
  unfold takeLast
  have hz : l.length - n = 0 := by omega
  simp [hz]

lemma takeLast_append_takeLast (n : Nat) (xs ys : List α) :
    takeLast n (takeLast n xs ++ ys) = takeLast n (xs ++ ys) := by
  rcases le_or_lt xs.length n with h | h
  · rw [takeLast_of_length_le h]
  · unfold takeLast
    have hdlen : (xs.drop (xs.length - n)).length = n := by
      simp only [List.length_drop]; omega
    rw [List.drop_append_eq_append_drop, List.drop_append_eq_append_drop, List.drop_drop]
    congr 1
    · congr 1
      simp only [List.length_append, hdlen, List.length_drop]
      omega
    · congr 1
      simp only [List.length_append, hdlen, List.length_drop]
      omega

lemma historyInv_congr {s t : EditorState} (h1 : t.history = s.history)
    (h2 : t.historyIndex = s.historyIndex) (h : HistoryInv s) : HistoryInv t := by
  rw [HistoryInv, h1, h2]
  exact h

lemma saveToHistory_eq_of_canvas_none {s : EditorState} (a i : String) (t : Nat)
    (hc : s.canvas = none) : saveToHistory a i t s = s := by
  simp [saveToHistory, hc]

lemma saveToHistory_eq_of_canvas_some {s : EditorState} {c : Canvas} (a i : String) (t : Nat)
    (hc : s.canvas = some c) :
    saveToHistory a i t s =
      { s with
        history := takeLast 50 (s.history.take (s.historyIndex + 1).toNat ++
          [{ id := i, action := a, timestamp := t, canvasState := c.scene }])
        historyIndex := ((takeLast 50 (s.history.take (s.historyIndex + 1).toNat ++
          [{ id := i, action := a, timestamp := t, canvasState := c.scene }])).length : Int) - 1
        isDirty := true } := by
  simp [saveToHistory, hc]

lemma historyInv_saveToHistory (a i : String) (t : Nat) (s : EditorState)
    (h : HistoryInv s) : HistoryInv (saveToHistory a i t s) := by
  cases hc : s.canvas with
  | none => rw [saveToHistory_eq_of_canvas_none a i t hc]; exact h
  | some c =>
    rw [saveToHistory_eq_of_canvas_some a i t hc]
    set nh := s.history.take (s.historyIndex + 1).toNat ++
      [({ id := i, action := a, timestamp := t, canvasState := c.scene } : HistoryState)]
      with hnh
    have hpos : 1 ≤ nh.length := by
      rw [hnh]
      simp only [List.length_append, List.length_cons, List.length_nil]
      omega
    have hl : (takeLast 50 nh).length = min 50 nh.length := takeLast_length 50 nh
    refine ⟨?_, ?_, ?_, ?_⟩
    · show -1 ≤ ((takeLast 50 nh).length : Int) - 1
      omega
    · show ((takeLast 50 nh).length : Int) - 1 < ((takeLast 50 nh).length : Int)
      omega
    · constructor
      · intro he
        exfalso
        have he2 : ((takeLast 50 nh).length : Int) - 1 = -1 := he
        omega
      · intro he
        exfalso
        have he2 : takeLast 50 nh = [] := he
        have h0 : (takeLast 50 nh).length = 0 := by rw [he2]; rfl
        omega
    · show (takeLast 50 nh).length ≤ 50
      omega

lemma historyInv_undo (s : EditorState) (h : HistoryInv s) : HistoryInv (undo s) := by
  unfold undo
  cases hc : s.canvas with
  | none => exact h
  | some c =>
    by_cases hle : s.historyIndex ≤ 0
    · simp only [if_pos hle]
      exact h
    · simp only [if_neg hle]
      cases hg : s.history.get? (s.historyIndex - 1).toNat with
      | none => exact h
      | some p =>
        obtain ⟨h1, h2, h3, h4⟩ := h
        refine ⟨by simp; omega, by simp; omega, ?_, h4⟩
        simp only
        constructor
        · intro he; omega
        · intro he
          exfalso
          have := h3.mpr he
          omega

lemma historyInv_redo (s : EditorState) (h : HistoryInv s) : HistoryInv (redo s) := by
  unfold redo
  cases hc : s.canvas with
  | none => exact h
  | some c =>
    by_cases hge : s.historyIndex ≥ (s.history.length : Int) - 1
    · simp only [if_pos hge]
      exact h
    · simp only [if_neg hge]
      cases hg : s.history.get? (s.historyIndex + 1).toNat with
      | none => exact h
      | some p =>
        obtain ⟨h1, h2, h3, h4⟩ := h
        refine ⟨by simp; omega, by simp; omega, ?_, h4⟩
        simp only
        constructor
        · intro he; omega
        · intro he
          exfalso
          have := h3.mpr he
          simp only [he, List.length_nil] at hge
          omega

lemma loadPreset_history_fields (p : String) (s : EditorState) :
    (loadPreset p s).history = s.history ∧ (loadPreset p s).historyIndex = s.historyIndex := by
  unfold loadPreset
  split
  · split
    · exact ⟨rfl, rfl⟩
    · exact ⟨rfl, rfl⟩
  · exact ⟨rfl, rfl⟩

lemma loadFromLocalStorage_history_fields (d : Option SavedData) (s : EditorState) :
    (loadFromLocalStorage d s).history = s.history ∧
      (loadFromLocalStorage d s).historyIndex = s.historyIndex := by
  unfold loadFromLocalStorage
  split
  · exact ⟨rfl, rfl⟩
  · split
    · exact ⟨rfl, rfl⟩
    · exact ⟨rfl, rfl⟩

lemma historyInv_dispatch (a : EditorAction) (s : EditorState) (h : HistoryInv s) :
    HistoryInv (dispatch a s) := by
  cases a with
  | setCanvas c => exact historyInv_congr rfl rfl h
  | setActiveObject o => exact historyInv_congr rfl rfl h
  | setSelectedTool t => exact historyInv_congr rfl rfl h
  | setLoading b => exact historyInv_congr rfl rfl h
  | setCurrentImage i => exact historyInv_congr rfl rfl h
  | setIsDirty b => exact historyInv_congr rfl rfl h
  | saveToHistory l i t => exact historyInv_saveToHistory l i t s h
  | undo => exact historyInv_undo s h
  | redo => exact historyInv_redo s h
  | savePreset n st i t => exact historyInv_congr rfl rfl h
  | loadPreset p =>
    exact historyInv_congr (loadPreset_history_fields p s).1 (loadPreset_history_fields p s).2 h
  | deletePreset p => exact historyInv_congr rfl rfl h
  | updateCanvasSettings p =>
    simp only [dispatch, updateCanvasSettings]
    cases s.canvas with
    | none => exact historyInv_congr rfl rfl h
    | some c => exact historyInv_congr rfl rfl h
  | updateTextSettings p => exact historyInv_congr rfl rfl h
  | deleteSelectedObject i t =>
    simp only [dispatch, deleteSelectedObject]
    cases s.canvas with
    | none => exact h
    | some c =>
      cases s.activeObject with
      | none => exact h
      | some o =>
        exact historyInv_congr rfl rfl
          (historyInv_saveToHistory _ _ _ _ (historyInv_congr rfl rfl h))
  | duplicateSelectedObject i t =>
    simp only [dispatch, duplicateSelectedObject]
    cases s.canvas with
    | none => exact h
    | some c =>
      cases s.activeObject with
      | none => exact h
      | some o =>
        exact historyInv_congr rfl rfl
          (historyInv_saveToHistory _ _ _ _ (historyInv_congr rfl rfl h))
  | bringToFront i t =>
    simp only [dispatch, bringToFront]
    cases s.canvas with
    | none => exact h
    | some c =>
      cases s.activeObject with
      | none => exact h
      | some o => exact historyInv_saveToHistory _ _ _ _ (historyInv_congr rfl rfl h)
  | sendToBack i t =>
    simp only [dispatch, sendToBack]
    cases s.canvas with
    | none => exact h
    | some c =>
      cases s.activeObject with
      | none => exact h
      | some o => exact historyInv_saveToHistory _ _ _ _ (historyInv_congr rfl rfl h)
  | importImage u img i t =>
    simp only [dispatch, importImage]
    cases s.canvas with
    | none => exact h
    | some c =>
      exact historyInv_congr rfl rfl
        (historyInv_saveToHistory _ _ _ _ (historyInv_congr rfl rfl h))
  | saveToLocalStorage => exact historyInv_congr rfl rfl h
  | loadFromLocalStorage d =>
    exact historyInv_congr (loadFromLocalStorage_history_fields d s).1
      (loadFromLocalStorage_history_fields d s).2 h
  | clearLocalStorage => exact historyInv_congr rfl rfl h

lemma historyInv_initialState : HistoryInv initialState := by
  refine ⟨by decide, by decide, by decide⟩

lemma reachable_historyInv {s : EditorState} (h : Reachable s) : HistoryInv s := by
  induction h with
  | init => exact historyInv_initialState
  | next a hr ih => exact historyInv_dispatch a _ ih

lemma undo_eq {s : EditorState} {c : Canvas} {p : HistoryState}
    (hc : s.canvas = some c) (hpos : 0 < s.historyIndex)
    (hg : s.history.get? (s.historyIndex - 1).toNat = some p) :
    undo s = { s with canvas := some { c with scene := p.canvasState }
                      historyIndex := s.historyIndex - 1
                      activeObject := none
                      isDirty := true } := by
  simp only [undo, hc]
  rw [if_neg (by omega), hg]

lemma redo_eq {s : EditorState} {c : Canvas} {p : HistoryState}
    (hc : s.canvas = some c) (hlt : s.historyIndex < (s.history.length : Int) - 1)
    (hg : s.history.get? (s.historyIndex + 1).toNat = some p) :
    redo s = { s with canvas := some { c with scene := p.canvasState }
                      historyIndex := s.historyIndex + 1
                      activeObject := none
                      isDirty := true } := by
  simp only [redo, hc]
  rw [if_neg (by omega), hg]

/-! ## C1: undo-then-redo round trip -/

/-- C1: for every reachable editor state in which canUndo() holds and the
snapshot at the cursor equals the current Scene, calling undo() and then
redo() restores the canvas (the state loaded from the snapshot)
bit-identically and returns the history cursor to its pre-undo index. -/
theorem c1_undo_redo_roundtrip (s : EditorState) (c : Canvas) (item : HistoryState)
    (hr : Reachable s) (hcu : canUndo s = true) (hc : s.canvas = some c)
    (hit : s.history.get? s.historyIndex.toNat = some item)
    (hsc : item.canvasState = c.scene) :
    (redo (undo s)).canvas = s.canvas ∧ (redo (undo s)).historyIndex = s.historyIndex := by
  obtain ⟨hi1, hi2, hi3, hi4⟩ := reachable_historyInv hr
  have hpos : 0 < s.historyIndex := by simpa [canUndo] using hcu
  have hk : (s.historyIndex - 1).toNat < s.history.length := by omega
  obtain ⟨p, hp⟩ : ∃ p, s.history.get? (s.historyIndex - 1).toNat = some p :=
    ⟨s.history.get ⟨(s.historyIndex - 1).toNat, hk⟩, List.get?_eq_get hk⟩
  rw [undo_eq hc hpos hp]
  set s1 : EditorState :=
    { s with canvas := some { c with scene := p.canvasState }
             historyIndex := s.historyIndex - 1
             activeObject := none
             isDirty := true } with hs1
  have hc1 : s1.canvas = some { c with scene := p.canvasState } := rfl
  have hlt1 : s1.historyIndex < (s1.history.length : Int) - 1 := by
    show s.historyIndex - 1 < (s.history.length : Int) - 1
    omega
  have hg1 : s1.history.get? (s1.historyIndex + 1).toNat = some item := by
    show s.history.get? (s.historyIndex - 1 + 1).toNat = some item
    have harith : s.historyIndex - 1 + 1 = s.historyIndex := by ring
    rw [harith]
    exact hit
  rw [redo_eq hc1 hlt1 hg1]
  constructor
  · show some { { c with scene := p.canvasState } with scene := item.canvasState } = s.canvas
    rw [hsc, hc]
  · show s.historyIndex - 1 + 1 = s.historyIndex
    ring

lemma witnessStateA_reachable : Reachable witnessStateA :=
  Reachable.next _ (Reachable.next _ (Reachable.next _ Reachable.init))

theorem c1_undo_redo_roundtrip_witness :
    (redo (undo witnessStateA)).canvas = witnessStateA.canvas ∧
      (redo (undo witnessStateA)).historyIndex = witnessStateA.historyIndex :=
  c1_undo_redo_roundtrip witnessStateA testCanvas
    { id := "h2", action := "Object added", timestamp := 2, canvasState := testCanvas.scene }
    witnessStateA_reachable (by decide) (by decide) (by decide) (by decide)

/-! ## C4: history cursor invariant -/

/-- C4: in every state reachable from the initial store state, the history
cursor is a valid index into the history list when the list is non-empty,
and equals -1 exactly when the list is empty. -/
theorem c4_history_cursor_invariant (s : EditorState) (h : Reachable s) :
    (s.history ≠ [] → 0 ≤ s.historyIndex ∧ s.historyIndex < (s.history.length : Int)) ∧
      (s.historyIndex = -1 ↔ s.history = []) := by
  obtain ⟨h1, h2, h3, h4⟩ := reachable_historyInv h
  refine ⟨?_, h3⟩
  intro hne
  refine ⟨?_, h2⟩
  by_contra hlt
  push_neg at hlt
  have hm1 : s.historyIndex = -1 := by omega
  exact hne (h3.mp hm1)

theorem c4_history_cursor_invariant_witness :
    (witnessStateA.history ≠ [] → 0 ≤ witnessStateA.historyIndex ∧
      witnessStateA.historyIndex < (witnessStateA.history.length : Int)) ∧
      (witnessStateA.historyIndex = -1 ↔ witnessStateA.history = []) :=
  c4_history_cursor_invariant witnessStateA witnessStateA_reachable

/-! ## C3: redo-branch pruning -/

/-- C3: in every reachable state in which the history cursor is strictly
below the last index, a new recordable action (saveToHistory with a bound
canvas) discards every snapshot beyond the cursor — the retained prefix is
exactly the first cursor+1 entries, followed by the new snapshot — and
makes canRedo() return false. -/
theorem c3_redo_branch_pruning (s : EditorState) (c : Canvas) (a i : String) (t : Nat)
    (hr : Reachable s)
    (hc : s.canvas = some c) (hlt : s.historyIndex < (s.history.length : Int) - 1) :
    canRedo (saveToHistory a i t s) = false ∧
      (saveToHistory a i t s).history =
        s.history.take (s.historyIndex + 1).toNat ++
          [{ id := i, action := a, timestamp := t, canvasState := c.scene }] := by
  obtain ⟨hge, _, _, hcap⟩ := reachable_historyInv hr
  rw [saveToHistory_eq_of_canvas_some a i t hc]
  set nh := s.history.take (s.historyIndex + 1).toNat ++
    [({ id := i, action := a, timestamp := t, canvasState := c.scene } : HistoryState)]
    with hnh
  have hnhlen : nh.length ≤ 50 := by
    rw [hnh]
    simp only [List.length_append, List.length_take, List.length_cons, List.length_nil]
    omega
  have hfull : takeLast 50 nh = nh := takeLast_of_length_le hnhlen
  constructor
  · simp only [canRedo]
    rw [decide_eq_false_iff_not]
    show ¬(((takeLast 50 nh).length : Int) - 1 < ((takeLast 50 nh).length : Int) - 1)
    omega
  · show takeLast 50 nh = nh
    exact hfull

theorem c3_redo_branch_pruning_witness :
    canRedo (saveToHistory "Delete object" "h3" 3 (undo witnessStateA)) = false ∧
      (saveToHistory "Delete object" "h3" 3 (undo witnessStateA)).history =
        (undo witnessStateA).history.take ((undo witnessStateA).historyIndex + 1).toNat ++
          [{ id := "h3", action := "Delete object", timestamp := 3,
             canvasState := testCanvas.scene }] :=
  c3_redo_branch_pruning (undo witnessStateA) testCanvas "Delete object" "h3" 3
    (Reachable.next EditorAction.undo witnessStateA_reachable)
    (by decide) (by decide)

/-! ## C2: history cap enforcement -/

lemma saveAll_spec (inputs : List (String × String × Nat)) (s : EditorState) (c : Canvas)
    (hc : s.canvas = some c) (hidx : s.historyIndex = (s.history.length : Int) - 1)
    (hcap : s.history.length ≤ 50) :
    (saveAll inputs s).canvas = some c ∧
      (saveAll inputs s).history = takeLast 50 (s.history ++ inputs.map (mkHistoryItem c)) ∧
      (saveAll inputs s).historyIndex = ((saveAll inputs s).history.length : Int) - 1 ∧
      (saveAll inputs s).history.length ≤ 50 := by
  induction inputs generalizing s with
  | nil =>
    refine ⟨hc, ?_, hidx, hcap⟩
    rw [List.map_nil, List.append_nil, takeLast_of_length_le hcap]
    rfl
  | cons x rest ih =>
    have hstep := saveToHistory_eq_of_canvas_some x.1 x.2.1 x.2.2 hc
    set s1 := saveToHistory x.1 x.2.1 x.2.2 s with hs1
    have hc1 : s1.canvas = some c := by rw [hstep]; exact hc
    have htake : s.history.take (s.historyIndex + 1).toNat = s.history := by
      have hn : (s.historyIndex + 1).toNat = s.history.length := by omega
      rw [hn, List.take_length]
    have hh1 : s1.history = takeLast 50 (s.history ++ [mkHistoryItem c x]) := by
      rw [hstep]
      show takeLast 50 (s.history.take (s.historyIndex + 1).toNat ++ _) = _
      rw [htake]
      rfl
    have hi1 : s1.historyIndex = (s1.history.length : Int) - 1 := by
      rw [hstep]
    have hcap1 : s1.history.length ≤ 50 := by
      rw [hh1, takeLast_length]
      omega
    obtain ⟨g1, g2, g3, g4⟩ := ih s1 hc1 hi1 hcap1
    refine ⟨g1, ?_, g3, g4⟩
    have hfold : saveAll (x :: rest) s = saveAll rest s1 := rfl
    rw [hfold, g2, hh1, takeLast_append_takeLast, List.map_cons, List.append_assoc]
    simp

/-- C2: starting from an empty timeline with a bound canvas, 51
saveToHistory calls leave exactly 50 entries, the first-recorded entry is
the one discarded, and the cursor points at the tail. -/
theorem c2_cap_enforcement (inputs : List (String × String × Nat)) (s : EditorState)
    (c : Canvas) (hlen : inputs.length = 51) (hh : s.history = [])
    (hi : s.historyIndex = -1) (hc : s.canvas = some c) :
    (saveAll inputs s).history.length = 50 ∧
      (saveAll inputs s).history = (inputs.map (mkHistoryItem c)).drop 1 ∧
      (saveAll inputs s).historyIndex = 49 := by
  have hidx : s.historyIndex = (s.history.length : Int) - 1 := by
    rw [hh, hi]
    rfl
  have hcap : s.history.length ≤ 50 := by rw [hh]; simp
  obtain ⟨g1, g2, g3, g4⟩ := saveAll_spec inputs s c hc hidx hcap
  have hmlen : (inputs.map (mkHistoryItem c)).length = 51 := by
    rw [List.length_map, hlen]
  have h2 : (saveAll inputs s).history = (inputs.map (mkHistoryItem c)).drop 1 := by
    rw [g2, hh, List.nil_append]
    unfold takeLast
    rw [hmlen]
  have hlen50 : (saveAll inputs s).history.length = 50 := by
    rw [h2, List.length_drop, hmlen]
  refine ⟨hlen50, h2, ?_⟩
  rw [g3, hlen50]
  rfl

theorem c2_cap_enforcement_witness :
    (saveAll c2Inputs (dispatch (EditorAction.setCanvas testCanvas) initialState)).history.length
        = 50 ∧
      (saveAll c2Inputs (dispatch (EditorAction.setCanvas testCanvas) initialState)).history =
        (c2Inputs.map (mkHistoryItem testCanvas)).drop 1 ∧
      (saveAll c2Inputs
        (dispatch (EditorAction.setCanvas testCanvas) initialState)).historyIndex = 49 :=
  c2_cap_enforcement c2Inputs (dispatch (EditorAction.setCanvas testCanvas) initialState)
    testCanvas (by decide) (by decide) (by decide) (by decide)

/-! ## C5: dirty flag discipline -/

lemma saveToHistory_isDirty {s : EditorState} {c : Canvas} (a i : String) (t : Nat)
    (hc : s.canvas = some c) : (saveToHistory a i t s).isDirty = true := by
  rw [saveToHistory_eq_of_canvas_some a i t hc]

/-- C5 counterexample: clearLocalStorage is not the persistence save, yet it
sets the dirty flag to false from a dirty state. -/
theorem c5_dirty_flag_counterexample :
    EditorAction.clearLocalStorage ≠ EditorAction.saveToLocalStorage ∧
      ({ initialState with isDirty := true } : EditorState).isDirty = true ∧
      (dispatch EditorAction.clearLocalStorage
        { initialState with isDirty := true }).isDirty = false :=
  ⟨by decide, rfl, rfl⟩

/-- C5 (amended): the settings updates, saveToHistory with a bound canvas,
and effective undo/redo set the dirty flag to true; besides
saveToLocalStorage, only clearLocalStorage and setIsDirty can move the
dirty flag from true to false — every other operation preserves a true
dirty flag.  (Preset catalog changes, selection changes and canvas binding
do not touch the flag.) -/
theorem c5_dirty_flag_amended :
    (∀ (p : CanvasSettingsPatch) (s : EditorState), (updateCanvasSettings p s).isDirty = true) ∧
    (∀ (p : TextSettingsPatch) (s : EditorState), (updateTextSettings p s).isDirty = true) ∧
    (∀ (a i : String) (t : Nat) (s : EditorState) (c : Canvas), s.canvas = some c →
      (saveToHistory a i t s).isDirty = true) ∧
    (∀ (s : EditorState) (c : Canvas), s.canvas = some c → 0 < s.historyIndex →
      s.historyIndex < (s.history.length : Int) → (undo s).isDirty = true) ∧
    (∀ (s : EditorState) (c : Canvas), s.canvas = some c → -1 ≤ s.historyIndex →
      s.historyIndex < (s.history.length : Int) - 1 → (redo s).isDirty = true) ∧
    (∀ (a : EditorAction) (s : EditorState), (∀ b, a ≠ EditorAction.setIsDirty b) →
      a ≠ EditorAction.saveToLocalStorage → a ≠ EditorAction.clearLocalStorage →
      s.isDirty = true → (dispatch a s).isDirty = true) := by
  refine ⟨fun p s => rfl, fun p s => rfl, fun a i t s c hc => saveToHistory_isDirty a i t hc,
    ?_, ?_, ?_⟩
  · intro s c hc hpos hlen
    have hk : (s.historyIndex - 1).toNat < s.history.length := by omega
    obtain ⟨p, hp⟩ : ∃ p, s.history.get? (s.historyIndex - 1).toNat = some p :=
      ⟨s.history.get ⟨(s.historyIndex - 1).toNat, hk⟩, List.get?_eq_get hk⟩
    rw [undo_eq hc hpos hp]
  · intro s c hc hge hlt
    have hk : (s.historyIndex + 1).toNat < s.history.length := by omega
    obtain ⟨p, hp⟩ : ∃ p, s.history.get? (s.historyIndex + 1).toNat = some p :=
      ⟨s.history.get ⟨(s.historyIndex + 1).toNat, hk⟩, List.get?_eq_get hk⟩
    rw [redo_eq hc hlt hp]
  · intro a s hni hns hnc hd
    cases a with
    | setCanvas c => exact hd
    | setActiveObject o => exact hd
    | setSelectedTool t => exact hd
    | setLoading b => exact hd
    | setCurrentImage i => exact hd
    | setIsDirty b => exact absurd rfl (hni b)
    | saveToHistory l i t =>
      cases hc : s.canvas with
      | none => rw [show dispatch (EditorAction.saveToHistory l i t) s = saveToHistory l i t s
          from rfl, saveToHistory_eq_of_canvas_none l i t hc]; exact hd
      | some c => exact saveToHistory_isDirty l i t hc
    | undo =>
      show (undo s).isDirty = true
      unfold undo
      cases s.canvas with
      | none => exact hd
      | some c =>
        dsimp only
        by_cases hle : s.historyIndex ≤ 0
        · rw [if_pos hle]; exact hd
        · rw [if_neg hle]
          cases s.history.get? (s.historyIndex - 1).toNat with
          | none => exact hd
          | some p => rfl
    | redo =>
      show (redo s).isDirty = true
      unfold redo
      cases s.canvas with
      | none => exact hd
      | some c =>
        dsimp only
        by_cases hge2 : s.historyIndex ≥ (s.history.length : Int) - 1
        · rw [if_pos hge2]; exact hd
        · rw [if_neg hge2]
          cases s.history.get? (s.historyIndex + 1).toNat with
          | none => exact hd
          | some p => rfl
    | savePreset n st i t => exact hd
    | loadPreset p =>
      show (loadPreset p s).isDirty = true
      unfold loadPreset
      split
      · split
        · rfl
        · exact hd
      · exact hd
    | deletePreset p => exact hd
    | updateCanvasSettings p => rfl
    | updateTextSettings p => rfl
    | deleteSelectedObject i t =>
      show (deleteSelectedObject i t s).isDirty = true
      unfold deleteSelectedObject
      cases s.canvas with
      | none => exact hd
      | some c =>
        cases s.activeObject with
        | none => exact hd
        | some o => exact saveToHistory_isDirty _ _ _ rfl
    | duplicateSelectedObject i t =>
      show (duplicateSelectedObject i t s).isDirty = true
      unfold duplicateSelectedObject
      cases s.canvas with
      | none => exact hd
      | some c =>
        cases s.activeObject with
        | none => exact hd
        | some o => exact saveToHistory_isDirty _ _ _ rfl
    | bringToFront i t =>
      show (bringToFront i t s).isDirty = true
      unfold bringToFront
      cases s.canvas with
      | none => exact hd
      | some c =>
        cases s.activeObject with
        | none => exact hd
        | some o => exact saveToHistory_isDirty _ _ _ rfl
    | sendToBack i t =>
      show (sendToBack i t s).isDirty = true
      unfold sendToBack
      cases s.canvas with
      | none => exact hd
      | some c =>
        cases s.activeObject with
        | none => exact hd
        | some o => exact saveToHistory_isDirty _ _ _ rfl
    | importImage u img i t =>
      show (importImage u img i t s).isDirty = true
      unfold importImage
      cases s.canvas with
      | none => exact hd
      | some c => exact saveToHistory_isDirty _ _ _ rfl
    | saveToLocalStorage => exact absurd rfl hns
    | loadFromLocalStorage d =>
      show (loadFromLocalStorage d s).isDirty = true
      unfold loadFromLocalStorage
      split
      · exact hd
      · split
        · exact hd
        · exact hd
    | clearLocalStorage => exact absurd rfl hnc

theorem c5_dirty_flag_amended_witness :
    (updateTextSettings {} initialState).isDirty = true ∧
      (dispatch EditorAction.undo { initialState with isDirty := true }).isDirty = true :=
  ⟨c5_dirty_flag_amended.2.1 {} initialState,
   c5_dirty_flag_amended.2.2.2.2.2 EditorAction.undo { initialState with isDirty := true }
     (by decide) (by decide) (by decide) rfl⟩

/-! ## C6: tool exclusivity -/

/-- C6 counterexample: the select tool is active and the text tool is
registered with a handler, yet activateTool on the text tool emits no
deactivate invocation for the active tool — its deactivate hook is invoked
zero times, not exactly once — because unregister removed the catalog entry
without clearing the active-tool field. -/
theorem c6_tool_exclusivity_counterexample :
    c6Registry.activeTool = some "select" ∧
      isToolActive "select" c6Registry = true ∧
      mapGet c6Registry.tools "text" = some textTool ∧
      textTool.handler.isSome = true ∧
      (activateTool "text" 1 c6Registry).2 = [ToolEvent.activate "text"] ∧
      ToolEvent.deactivate "select" ∉ (activateTool "text" 1 c6Registry).2 := by
  decide

/-- C6 (amended): when tool A — with a truthy (non-empty) id — is active
with a bound canvas and is still registered with a handler, activateTool
for a registered tool B with a handler invokes A's deactivate exactly
once, strictly before B's activate, and leaves B as the only active
tool. -/
theorem c6_tool_exclusivity_amended (r : ToolRegistryState) (idA idB : String)
    (c0 c : Nat) (dA dB : ToolDefinition) (hlA hlB : ToolHandler)
    (h1 : r.activeTool = some idA) (h2 : r.activeCanvas = some c0)
    (hne : idA ≠ "")
    (h3 : mapGet r.tools idA = some dA) (h4 : dA.handler = some hlA)
    (h5 : mapGet r.tools idB = some dB) (h6 : dB.handler = some hlB) :
    activateTool idB c r =
      ({ r with activeTool := some idB, activeCanvas := some c },
        [ToolEvent.deactivate idA, ToolEvent.activate idB]) := by
  simp only [activateTool, h1, h2, h3, h4, h5, h6, if_neg hne]
  rfl

theorem c6_tool_exclusivity_amended_witness :
    activateTool "text" 1 (activateTool "select" 0 initialToolRegistry).1 =
      ({ (activateTool "select" 0 initialToolRegistry).1 with
          activeTool := some "text", activeCanvas := some 1 },
        [ToolEvent.deactivate "select", ToolEvent.activate "text"]) :=
  c6_tool_exclusivity_amended (activateTool "select" 0 initialToolRegistry).1
    "select" "text" 0 1 selectTool textTool {} { hasMouseDown := true }
    (by decide) (by decide) (by decide) (by decide) (by decide) (by decide) (by decide)

/-! ## C7: activateTool with an unknown id -/

/-- C7 counterexample: with the select tool active, activateTool on an
unregistered id leaves the registry fields unchanged, but it is not free of
observable effects — the active tool's deactivate hook is still invoked. -/
theorem c7_unknown_tool_counterexample :
    c7Registry.activeTool = some "select" ∧
      mapGet c7Registry.tools "missing" = none ∧
      (activateTool "missing" 1 c7Registry).1 = c7Registry ∧
      (activateTool "missing" 1 c7Registry).2 = [ToolEvent.deactivate "select"] ∧
      (activateTool "missing" 1 c7Registry).2 ≠ [] := by
  decide

/-- C7 (amended): activateTool with an id not in the registry leaves the
registry state (tools, active tool, bound canvas) unchanged, but when a
registered tool with a handler is active its deactivate hook is still
invoked once, so the call is a field-level no-op with an observable hook
effect. -/
theorem c7_unknown_tool_amended (r : ToolRegistryState) (toolId : String) (c : Nat)
    (h : mapGet r.tools toolId = none) :
    (activateTool toolId c r).1 = r ∧
      ((activateTool toolId c r).2 = [] ∨
        ∃ a, r.activeTool = some a ∧
          (activateTool toolId c r).2 = [ToolEvent.deactivate a]) := by
  refine ⟨by simp only [activateTool, h], ?_⟩
  simp only [activateTool, h]
  cases h1 : r.activeTool with
  | none => simp
  | some a =>
    cases h2 : r.activeCanvas with
    | none => simp
    | some cv =>
      dsimp only
      by_cases he : a = ""
      · rw [if_pos he]
        simp
      · rw [if_neg he]
        cases h3 : mapGet r.tools a with
        | none => simp
        | some t =>
          dsimp only
          cases h4 : t.handler with
          | none => simp
          | some hh =>
            dsimp only
            right
            exact ⟨a, rfl, rfl⟩

theorem c7_unknown_tool_amended_witness :
    (activateTool "missing" 1 c7Registry).1 = c7Registry ∧
      ((activateTool "missing" 1 c7Registry).2 = [] ∨
        ∃ a, c7Registry.activeTool = some a ∧
          (activateTool "missing" 1 c7Registry).2 = [ToolEvent.deactivate a]) :=
  c7_unknown_tool_amended c7Registry "missing" 1 (by decide)

/-! ## C8: preset partial-merge idempotence -/

lemma option_getD_self (o : Option α) (x : α) : o.getD (o.getD x) = o.getD x := by
  cases o <;> rfl

lemma mergeTextSettings_idem (t : TextSettings) (p : TextSettingsPatch) :
    mergeTextSettings (mergeTextSettings t p) p = mergeTextSettings t p := by
  simp only [mergeTextSettings, option_getD_self]

/-- C8: applying a preset whose settings payload contains only a
textSettings domain leaves the engine's canvasSettings unchanged, and
applying it twice yields the same textSettings and canvasSettings as
applying it once. -/
theorem c8_preset_partial_merge_idempotent (categoryId presetId : String)
    (cat : PresetCatalog) (s : EditorState) (p : PresetState) (tp : TextSettingsPatch)
    (hp : getPreset categoryId presetId cat = some p)
    (ht : p.settings.textSettings = some tp)
    (hcs : p.settings.canvasSettings = none)
    (hf : p.settings.filters = none) (ho : p.settings.objects = none) :
    (applyPreset categoryId presetId cat s).1.canvasSettings = s.canvasSettings ∧
      (applyPreset categoryId presetId cat
        (applyPreset categoryId presetId cat s).1).1.textSettings =
        (applyPreset categoryId presetId cat s).1.textSettings ∧
      (applyPreset categoryId presetId cat
        (applyPreset categoryId presetId cat s).1).1.canvasSettings =
        (applyPreset categoryId presetId cat s).1.canvasSettings := by
  have happ : ∀ t : EditorState, (applyPreset categoryId presetId cat t).1 =
      updateTextSettings tp t := by
    intro t
    simp only [applyPreset, hp, ht, hcs]
  simp only [happ]
  exact ⟨rfl, mergeTextSettings_idem s.textSettings tp, rfl⟩

theorem c8_preset_partial_merge_idempotent_witness :
    (applyPreset "text" "p1" witnessCatalog initialState).1.canvasSettings =
        initialState.canvasSettings ∧
      (applyPreset "text" "p1" witnessCatalog
        (applyPreset "text" "p1" witnessCatalog initialState).1).1.textSettings =
        (applyPreset "text" "p1" witnessCatalog initialState).1.textSettings ∧
      (applyPreset "text" "p1" witnessCatalog
        (applyPreset "text" "p1" witnessCatalog initialState).1).1.canvasSettings =
        (applyPreset "text" "p1" witnessCatalog initialState).1.canvasSettings :=
  c8_preset_partial_merge_idempotent "text" "p1" witnessCatalog initialState witnessPreset
    witnessTextPatch (by decide) rfl rfl rfl rfl

/-! ## C9: import validation fails closed -/

/-- C9: importPreset on unparsable input, or on a record missing the
category or the preset field, returns false and leaves the catalog
completely unchanged. -/
theorem c9_import_fails_closed (data : Option ImportRecord) (newId : String) (now : Nat)
    (c : PresetCatalog)
    (h : data = none ∨ ∃ r, data = some r ∧ (r.category = none ∨ r.preset = none)) :
    importPreset data newId now c = (false, c) := by
  rcases h with h | ⟨r, hr, hbad⟩
  · rw [h]
    rfl
  · rw [hr]
    unfold importPreset
    dsimp only
    rcases hbad with hb | hb
    · rw [hb]
    · rw [hb]
      cases r.category <;> rfl

theorem c9_import_fails_closed_witness :
    importPreset (some c9Record) "id1" 5 witnessCatalog = (false, witnessCatalog) :=
  c9_import_fails_closed (some c9Record) "id1" 5
    witnessCatalog (Or.inr ⟨c9Record, rfl, Or.inr rfl⟩)

/-! ## C10: import into an unknown category silently succeeds -/

/-- C10: a structurally valid import record (category and preset fields
both present, category truthy) whose category id names no existing
category returns true while the catalog is left unchanged, because
addPreset silently does nothing for an unknown category. -/
theorem c10_import_unknown_category (r : ImportRecord) (cid : String) (p : ImportPreset)
    (newId : String) (now : Nat) (c : PresetCatalog)
    (hc : r.category = some cid) (hne : cid ≠ "") (hp : r.preset = some p)
    (hcat : mapGet c.presetCategories cid = none) :
    importPreset (some r) newId now c = (true, c) := by
  unfold importPreset
  dsimp only
  rw [hc, hp]
  dsimp only
  rw [if_neg hne]
  unfold addPreset
  rw [hcat]

theorem c10_import_unknown_category_witness :
    importPreset (some c10Record) "id2" 6 witnessCatalog = (true, witnessCatalog) :=
  c10_import_unknown_category c10Record "nope" { name := "X", settings := {} }
    "id2" 6 witnessCatalog rfl (by decide) rfl (by decide)
